import Mathlib

/-!
Verification of the DustSweeper core against its specification.

This file gives a shallow embedding of the two algorithmic subsystems of the
repository — the token-discovery filter with its versioned caches
(src/hooks/use-token-balances.ts, src/hooks/use-verified-tokens.ts,
src/lib/config.ts) and the transfer-call builder
(src/unnamed/part_000, `useTransferBuilder.buildTransferCalls`) — and proves
or refutes the specification's claims about them.

Modelling conventions:
* JS `number` USD values (`quote`, `usd_value`) are modelled as `Rat`.
* Base-unit token balances (`BigInt` / canonical numeric strings) are `Nat`.
* Network and chain-state effects are abstracted as oracles passed in as
  function arguments: `sim` is the outcome of the `eth_call` pre-check
  simulation, `checksumOk` is the EIP-55 checksum comparison used by viem
  `isAddress` for every non-all-lowercase input (keccak-based, left
  abstract).
* String manipulation is expressed over the underlying character lists so
  that every definition evaluates by kernel reduction.
-/

namespace DustSweeper

/-- ASCII lowercase conversion of one character, as JS `toLowerCase` acts on
the ASCII range (all addresses handled by the code are ASCII hex strings). -/
def lowerChar (c : Char) : Char :=
  if (('A' ≤ c) && (c ≤ 'Z')) then Char.ofNat (c.toNat + 32) else c

/-- JS `String.prototype.toLowerCase` restricted to ASCII strings. -/
def toLowerAscii (s : String) : String :=
  String.mk (s.data.map lowerChar)

/-- JS `String.prototype.padStart(len, "0")`: left-pad with zero characters
up to the requested length. -/
def padStartZero (len : Nat) (s : String) : String :=
  String.mk (List.replicate (len - s.data.length) '0') ++ s

/-- JS `BigInt.prototype.toString(16)`: lowercase hexadecimal rendering. -/
def natToHex (n : Nat) : String :=
  String.mk (Nat.toDigits 16 n)

/-- Numeric value of a string of decimal digit characters. -/
def natFromDigits (l : List Char) : Nat :=
  l.foldl (fun acc c => acc * 10 + (c.toNat - 48)) 0

/-- viem `parseEther` on a plain decimal string: the integer part scaled by
10^18 plus the fractional part right-padded (or truncated) to 18 digits.
All reserve constants in the source are such strings. -/
def parseEther (s : String) : Nat :=
  let intPart := s.data.takeWhile (fun c => !(c = '.'))
  let fracRaw := ((s.data.dropWhile (fun c => !(c = '.'))).drop 1).take 18
  let fracPart := fracRaw ++ List.replicate (18 - fracRaw.length) '0'
  natFromDigits intPart * 10 ^ 18 + natFromDigits fracPart

/-- The zero address, used by the discovery code as the canonical contract
address for native assets (src/hooks/use-token-balances.ts). -/
def zeroAddress : String := "0x0000000000000000000000000000000000000000"

/-- The provider's sentinel address marking a native-asset record
(src/hooks/use-token-balances.ts line 322). -/
def eeeAddress : String := "0xeeeeeeeeeeeeeeeeeeeeeeeeeeeeeeeeeeeeeeee"

/-- Decision for one hexadecimal digit character. -/
def isHexDigit (c : Char) : Bool :=
  (('0' ≤ c) && (c ≤ '9')) || (('a' ≤ c) && (c ≤ 'f')) || (('A' ≤ c) && (c ≤ 'F'))


/-- viem `isAddress` in its default strict mode: the string must match
`0x` followed by exactly 40 hex digits, and then either it is identical to
its own lowercasing (`address.toLowerCase() === address`) or its EIP-55
checksum rendering must equal the input. The keccak-based checksum
comparison is the abstract parameter `checksumOk`; it is consulted for
every non-all-lowercase input. -/
def isAddress (checksumOk : String → Bool) (s : String) : Bool :=
  decide (s.data.length = 42)
    && decide (s.data.take 2 = ['0', 'x'])
    && (s.data.drop 2).all isHexDigit
    && (decide (toLowerAscii s = s) || checksumOk s)

/-- One token record as produced by discovery (`Token` in src/types/index.ts),
restricted to the fields the transfer builder reads. `balance` is the
canonical base-unit integer (the source keeps it as a numeric string) and
`quote` the USD value. -/
structure Token where
  contract_address : String
  contract_decimals : Nat
  native_token : Bool
  is_spam : Bool
  balance : Nat
  quote : Rat
deriving Repr, DecidableEq

/-- The two call kinds of `TransferCall` (src/unnamed/part_000 line 14). -/
inductive CallKind where
  | native_transfer
  | erc20_transfer
deriving Repr, DecidableEq

/-- `TransferCallWithValue` (src/unnamed/part_000 lines 19-22): a transfer
call together with the originating token's USD value used for ranking.
The display-only `description` string and the retained `token` record are
omitted: no claim depends on them, and the merge step strips them. -/
structure TransferCallW where
  toAddress : String
  value : Nat
  data : Option String
  kind : CallKind
  tokenQuote : Rat
deriving Repr, DecidableEq

/-- `TransferCall` as returned to callers (temporary ranking fields removed,
src/unnamed/part_000 lines 163-167). -/
structure TransferCall where
  toAddress : String
  value : Nat
  data : Option String
  kind : CallKind
deriving Repr, DecidableEq

/-- The cleanup map of step 6: drop the temporary ranking fields. -/
def stripCall (c : TransferCallW) : TransferCall :=
  { toAddress := c.toAddress, value := c.value, data := c.data, kind := c.kind }

/-- The diagnostic pre-check summary (src/unnamed/part_000 lines 173-177). -/
structure PrecheckResult where
  total : Nat
  valid : Nat
  failed : Nat
deriving Repr, DecidableEq

/-- The successful result of `buildTransferCalls`. -/
structure BuildResult where
  calls : List TransferCall
  precheckResult : PrecheckResult
deriving Repr, DecidableEq

/-- `NATIVE_TOKEN_RESERVE` (src/unnamed/part_000 lines 26-33): the fixed
per-chain native reserve, in native units as a decimal string. -/
def NATIVE_TOKEN_RESERVE (chainId : Nat) : Option String :=
  if chainId = 1 then some ("0.002248")
  else if chainId = 137 then some ("0.04496")
  else if chainId = 56 then some ("0.0001724")
  else if chainId = 42161 then some ("0.0001124")
  else if chainId = 8453 then some ("0.0001124")
  else if chainId = 10 then some ("0.0001124")
  else none

/-- The ERC-20 transfer call data (src/unnamed/part_000 lines 78-82):
selector `0xa9059cbb`, then `targetAddress.slice(2).padStart(64, "0")`
(the address characters exactly as given), then the balance rendered in
lowercase hex and left-zero-padded to 64 characters. -/
def encodeErc20TransferData (targetAddress : String) (balance : Nat) : String :=
  let recipientAddress := padStartZero 64 (String.mk (targetAddress.data.drop 2))
  let amountHex := padStartZero 64 (natToHex balance)
  "0xa9059cbb" ++ recipientAddress ++ amountHex

/-- The descending sort by token USD value of step 1 (JS stable sort with
comparator `(a, b) => b.quote - a.quote`, src/unnamed/part_000 line 67;
modelled as a stable structural sort under the same ordering). -/
def sortByQuoteDesc (l : List Token) : List Token :=
  List.insertionSort (fun a b => b.quote ≤ a.quote) l

/-- Step 1 (src/unnamed/part_000 lines 61-68): non-native tokens with
positive balance, ranked by USD value descending, top 20 kept. -/
def selectTop20 (tokens : List Token) : List Token :=
  (sortByQuoteDesc (tokens.filter (fun t => decide (0 < t.balance) && !t.native_token))).take 20

/-- Step 2 (src/unnamed/part_000 lines 70-100): one encoded ERC-20 transfer
per selected token, skipping zero balances. -/
def buildPrecheckCalls (targetAddress : String) (selected : List Token) : List TransferCallW :=
  selected.filterMap (fun token =>
    if token.balance = 0 then none
    else some { kind := CallKind.erc20_transfer,
                toAddress := token.contract_address,
                value := 0,
                data := some (encodeErc20TransferData targetAddress token.balance),
                tokenQuote := token.quote })

/-- Step 3 (src/unnamed/part_000 lines 108-127): the calls whose `eth_call`
simulation succeeds, in order. The loop pushes a call exactly when the
simulation does not revert, so it is the order-preserving filter by `sim`. -/
def precheckValidCalls (sim : TransferCallW → Bool) (calls : List TransferCallW) : List TransferCallW :=
  calls.filter sim

/-- Step 3 counters: `(validCount, failedCount)` accumulated by the loop. -/
def precheckCounts (sim : TransferCallW → Bool) (calls : List TransferCallW) : Nat × Nat :=
  (calls.countP sim, calls.countP (fun c => !(sim c)))

/-- Step 4 (src/unnamed/part_000 lines 129-152): the optional native
transfer. Added exactly when the chain has a configured reserve and the
native balance strictly exceeds it; its value is balance minus reserve and
its ranking quote is the discovered native token's quote, defaulting to 0. -/
def buildNativeCall (tokens : List Token) (targetAddress : String) (chainId : Nat)
    (nativeBalance : Nat) : Option TransferCallW :=
  match NATIVE_TOKEN_RESERVE chainId with
  | none => none
  | some reserveAmountStr =>
      let reserveAmountWei := parseEther reserveAmountStr
      if parseEther reserveAmountStr < nativeBalance then
        some { kind := CallKind.native_transfer,
               toAddress := targetAddress,
               value := nativeBalance - reserveAmountWei,
               data := none,
               tokenQuote := ((tokens.find? (fun t => t.native_token)).map (fun t => t.quote)).getD 0 }
      else none

/-- The descending sort by ranking quote of step 5 (comparator
`(a, b) => (b.tokenQuote || 0) - (a.tokenQuote || 0)`; same stable sort
model as `sortByQuoteDesc`). -/
def sortCallsByQuoteDesc (l : List TransferCallW) : List TransferCallW :=
  List.insertionSort (fun a b => b.tokenQuote ≤ a.tokenQuote) l

/-- The final batch-size cap (src/unnamed/part_000 line 154). -/
def maxTransfers : Nat := 10

/-- Steps 5-6 (src/unnamed/part_000 lines 156-167): merge the surviving
pre-checked calls with the optional native transfer, rank by value
descending, truncate to `maxTransfers`, and strip the ranking fields. -/
def mergeAndCap (valid : List TransferCallW) (nativeCall : Option TransferCallW) : List TransferCall :=
  ((sortCallsByQuoteDesc (valid ++ nativeCall.toList)).take maxTransfers).map stripCall

/-- `buildTransferCalls` (src/unnamed/part_000 lines 42-191). `sender` is the
connected wallet address (`none` when disconnected), `nativeBalance` the
wagmi balance `balanceData.value`. The availability check on the public
client is environmental and folded into the `sim` oracle. -/
def buildTransferCalls (checksumOk : String → Bool) (sim : TransferCallW → Bool)
    (tokens : List Token) (targetAddress : String) (chainId : Nat)
    (sender : Option String) (nativeBalance : Nat) : Except String BuildResult :=
  if !(isAddress checksumOk targetAddress) then
    Except.error ("Invalid target address format")
  else
    match sender with
    | none => Except.error ("Wallet not connected")
    | some _ =>
        let precheckCalls := buildPrecheckCalls targetAddress (selectTop20 tokens)
        let validCalls := precheckValidCalls sim precheckCalls
        let counts := precheckCounts sim precheckCalls
        let nativeTransferCall := buildNativeCall tokens targetAddress chainId nativeBalance
        let finalCalls := mergeAndCap validCalls nativeTransferCall
        if finalCalls.length = 0 then Except.error ("No valid transfers to execute")
        else Except.ok { calls := finalCalls,
                         precheckResult := { total := precheckCalls.length,
                                             valid := counts.1,
                                             failed := counts.2 } }

/-- Modelled from the spec (section 6 and section 8, for claim C2 only): the
specified bit-exact layout of the transfer call data — selector, 24 zero
characters, the 40-character address rendered in lowercase, then the
64-character left-zero-padded amount. -/
def specTransferData (targetAddress : String) (balance : Nat) : String :=
  "0xa9059cbb" ++ String.mk (List.replicate 24 '0')
    ++ toLowerAscii (String.mk (targetAddress.data.drop 2))
    ++ padStartZero 64 (natToHex balance)

/-- `APP_CONFIG.MIN_TOKEN_VALUE_USD` (src/types/index.ts line 9). -/
def MIN_TOKEN_VALUE_USD : Rat := mkRat 1 100

/-- One raw asset record at the point the discovery filter runs
(src/hooks/use-token-balances.ts lines 316-345), restricted to the fields
the filter reads. After the preceding normalisation map, `token_address` is
always present (possibly empty), `balance` is the canonical base-unit
integer, and `usd_value` the parsed USD value (absent when unpriced, in
which case the filter treats it as 0). -/
structure Asset where
  token_address : String
  supports_erc : Option (List String)
  native_token : Bool
  is_spam : Bool
  balance : Nat
  usd_value : Option Rat
deriving Repr, DecidableEq

/-- Native detection in the filter (line 321): the explicit flag, or a
token address equal (case-insensitively) to the provider's sentinel. -/
def assetIsNative (a : Asset) : Bool :=
  a.native_token
    || (decide (¬ a.token_address = "") && decide (toLowerAscii a.token_address = eeeAddress))

/-- ERC-20 detection in the filter (lines 324-330): never for native
records; otherwise an explicit `erc20` standard tag, or a usable contract
address (nonempty, not the zero address, not the native sentinel). -/
def assetIsErc20 (a : Asset) : Bool :=
  if assetIsNative a then false
  else
    ((a.supports_erc.getD []).contains ("erc20"))
      || (decide (¬ a.token_address = "") && decide (¬ a.token_address = zeroAddress)
          && decide (¬ toLowerAscii a.token_address = eeeAddress))

/-- The discovery filter predicate (src/hooks/use-token-balances.ts lines
316-345), with the registry query `isTokenVerified` abstracted as
`verified`. -/
def keepAsset (verified : String → Bool) (a : Asset) : Bool :=
  let isNative := assetIsNative a
  let isValidTokenType := isNative || assetIsErc20 a
  let quote := a.usd_value.getD 0
  let hasValue := decide (quote = 0) || decide (MIN_TOKEN_VALUE_USD < quote)
  let hasBalance := decide (0 < a.balance)
  let isNotSpam := !a.is_spam
  let isVerifiedFlag := isNative || (decide (¬ a.token_address = "") && verified a.token_address)
  if isNative then hasBalance && isNotSpam
  else isValidTokenType && hasValue && hasBalance && isNotSpam && isVerifiedFlag

/-- The api status values of the verified-token hook. -/
inductive ApiStatus where
  | untested
  | working
  | failed
deriving Repr, DecidableEq

/-- The registry state read by the `isTokenVerified` closure
(src/hooks/use-verified-tokens.ts): the verified set (a set of lowercase
addresses, modelled as a list queried by membership), the api status, and
the readiness flag. -/
structure VerifiedState where
  verifiedTokens : List String
  apiStatus : ApiStatus
  isReady : Bool
deriving Repr, DecidableEq

/-- `isTokenVerified` (src/hooks/use-verified-tokens.ts lines 127-156). -/
def isTokenVerified (s : VerifiedState) (tokenAddress : String) : Bool :=
  if !s.isReady then false
  else if decide (s.verifiedTokens.length = 0) && decide (s.apiStatus = ApiStatus.failed) then true
  else if decide (s.apiStatus = ApiStatus.failed) && decide (0 < s.verifiedTokens.length) then
    s.verifiedTokens.contains (toLowerAscii tokenAddress)
  else if decide (s.verifiedTokens.length = 0) && decide (s.apiStatus = ApiStatus.working) then true
  else s.verifiedTokens.contains (toLowerAscii tokenAddress)

/-- The catch branch of `fetchVerifiedTokens` (src/hooks/use-verified-tokens.ts
lines 95-121): the hook state after a failed upstream fetch, given the
previously cached verified set for the chain (if any). A non-empty previous
set is kept; otherwise the state becomes ready with an empty set. In both
branches `apiStatus` is `failed` and `isReady` is true. -/
def fetchVerifiedTokensFailureState (previousCache : Option (List String)) : VerifiedState :=
  match previousCache with
  | some prev =>
      if 0 < prev.length then
        { verifiedTokens := prev, apiStatus := ApiStatus.failed, isReady := true }
      else
        { verifiedTokens := [], apiStatus := ApiStatus.failed, isReady := true }
  | none => { verifiedTokens := [], apiStatus := ApiStatus.failed, isReady := true }

/-- A versioned cache entry (src/hooks/use-verified-tokens.ts lines 5-11 and
the in-memory token cache of src/hooks/use-token-balances.ts lines 528-536). -/
structure CacheEntry (α : Type) where
  data : α
  timestamp : Nat
  version : Nat

/-- One cache namespace: the entry map together with the module-level
version counter (`cacheVersion` / `tokenCacheVersion`). -/
structure VersionedCache (κ : Type) (α : Type) where
  entries : κ → Option (CacheEntry α)
  version : Nat

/-- `APP_CONFIG.CACHE_TTL` (src/types/index.ts line 8), in milliseconds. -/
def CACHE_TTL : Nat := 2 * 60 * 1000

/-- A cache write: store the value with the current timestamp and the
current global version (`cache.set(key, {data, timestamp: Date.now(),
version})`). -/
def cachePut [DecidableEq κ] (s : VersionedCache κ α) (k : κ) (v : α) (now : Nat) :
    VersionedCache κ α :=
  { entries := fun q =>
      if q = k then some { data := v, timestamp := now, version := s.version }
      else s.entries q,
    version := s.version }

/-- A cache read with the freshness check of the source (`Date.now() -
cached.timestamp < CACHE_TTL && cached.version === currentVersion`,
src/hooks/use-verified-tokens.ts line 43, src/hooks/use-token-balances.ts
line 651): stale or version-lagging entries are misses. -/
def cacheGet (s : VersionedCache κ α) (k : κ) (now : Nat) : Option α :=
  match s.entries k with
  | some e =>
      if decide (now - e.timestamp < CACHE_TTL) && decide (e.version = s.version) then some e.data
      else none
  | none => none

/-- `invalidateVerifiedTokensCache` / `invalidateTokenBalanceCache`: bump the
global version counter, leaving entries in place. -/
def cacheInvalidateAll (s : VersionedCache κ α) : VersionedCache κ α :=
  { entries := s.entries, version := s.version + 1 }

/-- `getMoralisChainName` (src/lib/config.ts lines 65-84). The `MONAD` case of
the source references a key absent from `SUPPORTED_CHAINS`
(src/types/index.ts lines 15-22), so it compares against `undefined` and can
never match a numeric chain id; every unlisted id falls to the default
branch, which returns "base". -/
def getMoralisChainName (chainId : Nat) : String :=
  if chainId = 1 then "eth"
  else if chainId = 137 then "polygon"
  else if chainId = 56 then "bsc"
  else if chainId = 42161 then "arbitrum"
  else if chainId = 8453 then "base"
  else if chainId = 10 then "optimism"
  else "base"

/-- The chain-resolution step of discovery (src/hooks/use-token-balances.ts
lines 157-160): a falsy (empty) chain name would raise the unsupported-chain
error before any network fetch; otherwise discovery proceeds with the name. -/
def resolveChainStep (chainId : Nat) : Except String String :=
  let chainName := getMoralisChainName chainId
  if chainName = "" then Except.error ("Unsupported chain") else Except.ok chainName

/-- A concrete well-formed lowercase address: the repository's hard-coded
sweep destination (src/unnamed/part_008 line 351), reused as a concrete
input in witnesses and counterexamples. -/
def senderAddr : String := "0x9d5befd138960ddf0dc4368a036bfad420e306ef"

/-- A concrete well-formed mixed-case address: the first EIP-55 reference
checksum vector. Being correctly checksummed, it passes viem `isAddress`. -/
def checksummedAddr : String := "0x5aAeb6053F3E94C9b9A09f33669435E7Ef1BeAed"

/-- A concrete ERC-20 token record (address from `MOCK_TOKENS`,
src/lib/config.ts) used as a concrete input in witnesses. -/
def sampleErc20Token : Token :=
  { contract_address := "0x21cfcfc3d8f98fc728f48341d10ad8283f6eb7ab",
    contract_decimals := 18,
    native_token := false,
    is_spam := false,
    balance := 2,
    quote := 5 }

/-- A concrete empty cache namespace used as a concrete input in witnesses. -/
def emptyNatCache : VersionedCache Nat Nat :=
  { entries := fun _ => none, version := 1 }

/-- A concrete non-native asset that satisfies every filter clause, used as
a concrete input in witnesses. -/
def sampleKeptAsset : Asset :=
  { token_address := "0x21cfcfc3d8f98fc728f48341d10ad8283f6eb7ab",
    supports_erc := some (["erc20"]),
    native_token := false,
    is_spam := false,
    balance := 5,
    usd_value := some 1 }

/-- A concrete non-native asset priced at 0.005 USD — strictly between zero
and the 0.01 USD dust threshold (the spec's end-to-end dust example). -/
def sampleDustAsset : Asset :=
  { token_address := "0x21cfcfc3d8f98fc728f48341d10ad8283f6eb7ab",
    supports_erc := some (["erc20"]),
    native_token := false,
    is_spam := false,
    balance := 5,
    usd_value := some (mkRat 1 200) }

/-! ## Helper lemmas -/

theorem countP_add_countP_not {α : Type} (p : α → Bool) (l : List α) :
    l.countP p + l.countP (fun a => !(p a)) = l.length := by
  induction l with
  | nil => rfl
  | cons x xs ih =>
      simp only [List.countP_cons, List.length_cons]
      cases h : p x <;> simp [h] <;> omega

theorem buildPrecheckCalls_length (targetAddress : String) (l : List Token)
    (h : ∀ t ∈ l, ¬ t.balance = 0) :
    (buildPrecheckCalls targetAddress l).length = l.length := by
  induction l with
  | nil => rfl
  | cons x xs ih =>
      have hx : ¬ x.balance = 0 := h x (by simp)
      have hxs := ih (fun t ht => h t (by simp [ht]))
      simp only [buildPrecheckCalls, List.filterMap_cons, if_neg hx] at hxs ⊢
      simp [hxs]

theorem balance_ne_zero_of_mem_selectTop20 (tokens : List Token) :
    ∀ t ∈ selectTop20 tokens, ¬ t.balance = 0 := by
  intro t ht
  have h1 : t ∈ sortByQuoteDesc
      (tokens.filter (fun t => decide (0 < t.balance) && !t.native_token)) :=
    List.mem_of_mem_take ht
  simp only [sortByQuoteDesc] at h1
  have h2 := (List.perm_insertionSort (fun a b => b.quote ≤ a.quote)
      (tokens.filter (fun t => decide (0 < t.balance) && !t.native_token))).mem_iff.mp h1
  have h3 := (List.mem_filter.mp h2).2
  simp only [Bool.and_eq_true, decide_eq_true_eq] at h3
  omega

/-! ## Claim theorems -/

/-- C9 (code bug): the claim says an unresolvable chain id makes discovery
fail with an unsupported-chain error before any fetch, and the code even
carries that guard — but `getMoralisChainName` maps every unlisted chain id
to "base", so the guard is unreachable: at the unsupported chain id 999,
resolution yields "base" and discovery proceeds to the network fetch. -/
theorem C9_chain_resolution_never_fails :
    getMoralisChainName 999 = "base"
      ∧ resolveChainStep 999 = Except.ok ("base")
      ∧ ∀ chainId : Nat, resolveChainStep chainId = Except.ok (getMoralisChainName chainId) := by
  refine ⟨by decide, by rfl, ?_⟩
  intro c
  have hne : ¬ getMoralisChainName c = "" := by
    unfold getMoralisChainName
    repeat' split
    all_goals decide
  simp only [resolveChainStep]
  rw [if_neg hne]

/-- C3 (confirmed): on a chain with a configured reserve, the native
transfer is included iff the native balance strictly exceeds the parsed
reserve (equality yields none), and its value is exactly balance minus
reserve. -/
theorem C3_native_reserve (tokens : List Token) (targetAddress : String)
    (chainId : Nat) (nativeBalance : Nat) (r : String)
    (h : NATIVE_TOKEN_RESERVE chainId = some r) :
    ((buildNativeCall tokens targetAddress chainId nativeBalance).isSome = true
        ↔ parseEther r < nativeBalance)
      ∧ ∀ c, buildNativeCall tokens targetAddress chainId nativeBalance = some c →
          c.value = nativeBalance - parseEther r := by
  constructor
  · simp only [buildNativeCall, h]
    split <;> simp_all
  · intro c hc
    simp only [buildNativeCall, h] at hc
    split at hc
    · cases hc
      rfl
    · cases hc

/-- Witness for C3 at chain 1: a balance exactly equal to the reserve
(2248 × 10^12 wei) yields no native transfer, one wei more yields one, and
five wei more transfers exactly five wei. -/
theorem C3_native_reserve_witness :
    NATIVE_TOKEN_RESERVE 1 = some ("0.002248")
      ∧ buildNativeCall [] senderAddr 1 2248000000000000 = none
      ∧ (buildNativeCall [] senderAddr 1 2248000000000001).isSome = true
      ∧ (buildNativeCall [] senderAddr 1 2248000000000005).map (fun c => c.value) = some 5 := by
  refine ⟨by decide, ?_, ?_, by decide⟩
  · have h := (C3_native_reserve [] senderAddr 1 2248000000000000 ("0.002248") (by decide)).1
    have h2 : ¬ parseEther ("0.002248") < 2248000000000000 := by decide
    cases ho : buildNativeCall [] senderAddr 1 2248000000000000 with
    | none => rfl
    | some c => exact absurd (h.mp (by simp [ho])) h2
  · exact ((C3_native_reserve [] senderAddr 1 2248000000000001 ("0.002248") (by decide)).1).mpr
      (by decide)

/-- C6 (confirmed): a native-asset record is kept by the discovery filter
iff its balance is positive and it is not flagged spam; the USD value and
the verification oracle play no role. -/
theorem C6_native_filter (verified : String → Bool) (a : Asset)
    (h : assetIsNative a = true) :
    (keepAsset verified a = true ↔ (0 < a.balance ∧ a.is_spam = false)) := by
  simp only [keepAsset, h, if_true]
  simp [Bool.and_eq_true, decide_eq_true_eq]

/-- Witness for C6: a native record with dust-level value (0.001 USD,
below the 0.01 threshold) and a verification oracle rejecting everything is
still kept, since its balance is positive and it is not spam. -/
theorem C6_native_filter_witness :
    assetIsNative { token_address := zeroAddress, supports_erc := none,
                    native_token := true, is_spam := false, balance := 3,
                    usd_value := some (mkRat 1 1000) } = true
      ∧ keepAsset (fun _ => false)
          { token_address := zeroAddress, supports_erc := none,
            native_token := true, is_spam := false, balance := 3,
            usd_value := some (mkRat 1 1000) } = true := by
  refine ⟨by decide, ?_⟩
  exact (C6_native_filter (fun _ => false) _ (by decide)).mpr (by decide)

/-- C7 (confirmed): after a failed verified-list fetch with no previous
non-empty cached set, the registry is ready and `isTokenVerified` returns
true for every address (degraded allow-all mode). -/
theorem C7_degraded_registry (previousCache : Option (List String))
    (h : ∀ l, previousCache = some l → l = []) :
    (fetchVerifiedTokensFailureState previousCache).isReady = true
      ∧ ∀ addr, isTokenVerified (fetchVerifiedTokensFailureState previousCache) addr = true := by
  cases previousCache with
  | none => exact ⟨rfl, fun addr => rfl⟩
  | some l =>
      have hl := h l rfl
      subst hl
      exact ⟨rfl, fun addr => rfl⟩

/-- Witness for C7: with no previous cache at all, the degraded registry
accepts a concrete arbitrary address. -/
theorem C7_degraded_registry_witness :
    (fetchVerifiedTokensFailureState none).isReady = true
      ∧ isTokenVerified (fetchVerifiedTokensFailureState none) checksummedAddr = true := by
  have h := C7_degraded_registry none (by intro l hl; cases hl)
  exact ⟨h.1, h.2 checksummedAddr⟩

/-- C8 (confirmed): a put followed by a get of the same key within the TTL
and with the version counter unchanged returns the stored value; after a
global version bump the same get misses even though the TTL has not
elapsed. -/
theorem C8_cache_roundtrip {κ α : Type} [DecidableEq κ]
    (s : VersionedCache κ α) (k : κ) (v : α) (t now : Nat)
    (h1 : t ≤ now) (h2 : now - t < CACHE_TTL) :
    cacheGet (cachePut s k v t) k now = some v
      ∧ cacheGet (cacheInvalidateAll (cachePut s k v t)) k now = none := by
  constructor
  · simp [cacheGet, cachePut, h2]
  · have hv : ¬ s.version = s.version + 1 := by omega
    simp [cacheGet, cachePut, cacheInvalidateAll, h2, hv]

/-- Witness for C8 on a concrete cache: store at time 100, read at
time 150 (well inside the 120000 ms TTL), then bump and miss. -/
theorem C8_cache_roundtrip_witness :
    cacheGet (cachePut emptyNatCache 7 42 100) 7 150 = some 42
      ∧ cacheGet (cacheInvalidateAll (cachePut emptyNatCache 7 42 100)) 7 150 = none :=
  C8_cache_roundtrip emptyNatCache 7 42 100 150 (by decide) (by decide)

/-- C2 (counterexample): the EIP-55 reference address is shape-valid (and,
being correctly checksummed, passes viem `isAddress`), yet the encoded data
embeds its characters without lowercasing, so the claimed all-lowercase
layout fails; the amount portion for 1000 is still the zero-padded 3e8. -/
theorem C2_counterexample :
    (checksummedAddr.data.length = 42 ∧ (checksummedAddr.data.drop 2).all isHexDigit = true)
      ∧ ¬ encodeErc20TransferData checksummedAddr 1000 = specTransferData checksummedAddr 1000
      ∧ encodeErc20TransferData checksummedAddr 1000
          = "0xa9059cbb0000000000000000000000005aAeb6053F3E94C9b9A09f33669435E7Ef1BeAed00000000000000000000000000000000000000000000000000000000000003e8" := by
  exact ⟨⟨by decide, by decide⟩, by decide, by decide⟩

/-- C2 (amended): for every destination whose hex part has 40 characters,
the encoded data is the selector, 24 zero characters, the 40 destination
characters exactly as supplied (lowercase only when the input is
lowercase), and the 64-character left-zero-padded lowercase hex amount. -/
theorem C2_encoding_layout (targetAddress : String) (balance : Nat)
    (h : (targetAddress.data.drop 2).length = 40) :
    encodeErc20TransferData targetAddress balance
      = "0xa9059cbb" ++ String.mk (List.replicate 24 '0')
          ++ String.mk (targetAddress.data.drop 2)
          ++ padStartZero 64 (natToHex balance) := by
  simp only [encodeErc20TransferData, padStartZero]
  apply String.ext
  simp [h, List.append_assoc]

/-- Witness for C2 (amended) at the repository's sweep destination and
amount 1000: the data evaluates to the selector, 24 zeros, the address
characters, and 3e8 zero-padded to 64 characters. -/
theorem C2_encoding_layout_witness :
    (senderAddr.data.drop 2).length = 40
      ∧ encodeErc20TransferData senderAddr 1000
          = "0xa9059cbb0000000000000000000000009d5befd138960ddf0dc4368a036bfad420e306ef00000000000000000000000000000000000000000000000000000000000003e8" :=
  ⟨by decide, (C2_encoding_layout senderAddr 1000 (by decide)).trans (by decide)⟩

/-- C1 (counterexample): with the connected sender being the repository's
sweep address and a native balance one wei above the reserve, a build to
the zero address and a build to the sender's own address both pass
validation and return a non-empty call batch instead of failing. -/
theorem C1_counterexample :
    buildTransferCalls (fun _ => false) (fun _ => true) [] zeroAddress 1
        (some senderAddr) 2248000000000001
      = Except.ok { calls := [ { toAddress := zeroAddress, value := 1, data := none,
                                 kind := CallKind.native_transfer } ],
                    precheckResult := { total := 0, valid := 0, failed := 0 } }
      ∧ buildTransferCalls (fun _ => false) (fun _ => true) [] senderAddr 1
          (some senderAddr) 2248000000000001
        = Except.ok { calls := [ { toAddress := senderAddr, value := 1, data := none,
                                   kind := CallKind.native_transfer } ],
                      precheckResult := { total := 0, valid := 0, failed := 0 } } := by
  exact ⟨by rfl, by rfl⟩

/-- C1 (amended): the builder's validation step fails exactly on a
destination that is not a well-formed address (or a disconnected wallet);
any well-formed destination — including the zero address and the sender's
own address — passes it, and every later failure is the empty-batch error. -/
theorem C1_validation (checksumOk : String → Bool) (sim : TransferCallW → Bool)
    (tokens : List Token) (targetAddress : String) (chainId : Nat)
    (sender : Option String) (nativeBalance : Nat) :
    (buildTransferCalls checksumOk sim tokens targetAddress chainId sender nativeBalance
          = Except.error ("Invalid target address format")
        ↔ isAddress checksumOk targetAddress = false)
      ∧ (isAddress checksumOk targetAddress = true → sender = none →
          buildTransferCalls checksumOk sim tokens targetAddress chainId sender nativeBalance
            = Except.error ("Wallet not connected"))
      ∧ (isAddress checksumOk targetAddress = true → ∀ s0, sender = some s0 →
          ∀ e, buildTransferCalls checksumOk sim tokens targetAddress chainId sender nativeBalance
              = Except.error e → e = "No valid transfers to execute") := by
  cases hb : isAddress checksumOk targetAddress with
  | false =>
      refine ⟨?_, ?_, ?_⟩
      · simp [buildTransferCalls, hb]
      · intro ht
        exact absurd ht (by simp)
      · intro ht
        exact absurd ht (by simp)
  | true =>
      cases sender with
      | none =>
          refine ⟨?_, ?_, ?_⟩
          · simp [buildTransferCalls, hb]
          · intro _ _
            simp [buildTransferCalls, hb]
          · intro _ s0 hs
            cases hs
      | some s0 =>
          refine ⟨?_, ?_, ?_⟩
          · simp only [buildTransferCalls, hb, Bool.not_true, Bool.false_eq_true, if_false]
            split <;> simp
          · intro _ hn
            cases hn
          · intro _ s1 _ e he
            simp only [buildTransferCalls, hb, Bool.not_true, Bool.false_eq_true, if_false] at he
            split at he
            · cases he
              rfl
            · cases he

/-- Witness for C1 (amended): a malformed destination is rejected with the
format error, and a well-formed destination with a disconnected wallet is
rejected with the connection error. -/
theorem C1_validation_witness :
    buildTransferCalls (fun _ => false) (fun _ => true) [] ("0xnotanaddress") 1 none 0
        = Except.error ("Invalid target address format")
      ∧ buildTransferCalls (fun _ => false) (fun _ => true) [] senderAddr 1 none 0
        = Except.error ("Wallet not connected") := by
  constructor
  · exact ((C1_validation (fun _ => false) (fun _ => true) [] ("0xnotanaddress") 1 none 0).1).mpr
      (by decide)
  · exact (C1_validation (fun _ => false) (fun _ => true) [] senderAddr 1 none 0).2.1
      (by decide) rfl

instance : IsTotal Token (fun a b => b.quote ≤ a.quote) :=
  ⟨fun a b => le_total b.quote a.quote⟩

instance : IsTrans Token (fun a b => b.quote ≤ a.quote) :=
  ⟨fun _ _ _ hab hbc => le_trans hbc hab⟩

/-- C4 (confirmed): the pre-check candidate list has size
min(20, number of non-native positive-balance tokens), those candidates are
drawn from the value-descending order (the sorted pool is pairwise ordered
by USD value and the candidates are its 20-element prefix), and the final
batch has size min(10, surviving calls plus one optional native transfer). -/
theorem C4_candidate_and_batch_sizes (sim : TransferCallW → Bool) (tokens : List Token)
    (targetAddress : String) (chainId : Nat) (nativeBalance : Nat) :
    (buildPrecheckCalls targetAddress (selectTop20 tokens)).length
        = min 20 (tokens.filter (fun t => decide (0 < t.balance) && !t.native_token)).length
      ∧ List.Pairwise (fun a b : Token => b.quote ≤ a.quote)
          (sortByQuoteDesc (tokens.filter (fun t => decide (0 < t.balance) && !t.native_token)))
      ∧ (mergeAndCap
            (precheckValidCalls sim (buildPrecheckCalls targetAddress (selectTop20 tokens)))
            (buildNativeCall tokens targetAddress chainId nativeBalance)).length
        = min 10
            ((precheckValidCalls sim (buildPrecheckCalls targetAddress (selectTop20 tokens))).length
              + (if (buildNativeCall tokens targetAddress chainId nativeBalance).isSome then 1 else 0)) := by
  refine ⟨?_, ?_, ?_⟩
  · rw [buildPrecheckCalls_length targetAddress _ (balance_ne_zero_of_mem_selectTop20 tokens)]
    simp only [selectTop20, sortByQuoteDesc, List.length_take]
    rw [(List.perm_insertionSort (fun a b : Token => b.quote ≤ a.quote)
        (tokens.filter (fun t => decide (0 < t.balance) && !t.native_token))).length_eq]
  · exact List.sorted_insertionSort (fun a b : Token => b.quote ≤ a.quote)
      (tokens.filter (fun t => decide (0 < t.balance) && !t.native_token))
  · simp only [mergeAndCap, sortCallsByQuoteDesc, maxTransfers, List.length_map,
      List.length_take]
    rw [(List.perm_insertionSort (fun a b : TransferCallW => b.tokenQuote ≤ a.tokenQuote) _).length_eq]
    rw [List.length_append]
    cases buildNativeCall tokens targetAddress chainId nativeBalance with
    | none => simp
    | some c => simp [Option.toList]

/-- C5 (confirmed): a non-native record is kept by the discovery filter iff
it is recognizable as a fungible token, its USD value is exactly zero or
strictly above the 0.01 USD dust threshold, its balance is positive, it is
not flagged spam, and the registry verifies its (nonempty) address; in
particular zero-balance records and records priced strictly between zero
and the threshold are never kept. -/
theorem C5_nonnative_filter (verified : String → Bool) (a : Asset)
    (h : assetIsNative a = false) :
    (keepAsset verified a = true
        ↔ (assetIsErc20 a = true
            ∧ (a.usd_value.getD 0 = 0 ∨ MIN_TOKEN_VALUE_USD < a.usd_value.getD 0)
            ∧ 0 < a.balance
            ∧ a.is_spam = false
            ∧ ¬ a.token_address = "" ∧ verified a.token_address = true))
      ∧ (a.balance = 0 → keepAsset verified a = false)
      ∧ (0 < a.usd_value.getD 0 → a.usd_value.getD 0 < MIN_TOKEN_VALUE_USD →
          keepAsset verified a = false) := by
  refine ⟨?_, ?_, ?_⟩
  · simp only [keepAsset, h, if_false, Bool.false_or]
    simp [Bool.and_eq_true, decide_eq_true_eq, Bool.not_eq_true', and_assoc]
  · intro hb
    simp [keepAsset, h, hb]
  · intro h1 h2
    have hq0 : ¬ a.usd_value.getD 0 = 0 := ne_of_gt h1
    have hqm : ¬ MIN_TOKEN_VALUE_USD < a.usd_value.getD 0 := not_lt.mpr (le_of_lt h2)
    simp [keepAsset, h, hq0, hqm]

/-- Witness for C5: a verified dollar-priced token with positive balance is
kept, and the same token priced at 0.005 USD (inside the dust band) is
dropped even though the registry verifies it. -/
theorem C5_nonnative_filter_witness :
    assetIsNative sampleKeptAsset = false
      ∧ keepAsset (fun _ => true) sampleKeptAsset = true
      ∧ keepAsset (fun _ => true) sampleDustAsset = false := by
  refine ⟨by decide, ?_, ?_⟩
  · exact ((C5_nonnative_filter (fun _ => true) sampleKeptAsset (by decide)).1).mpr (by decide)
  · exact (C5_nonnative_filter (fun _ => true) sampleDustAsset (by decide)).2.2
      (by decide) (by decide)

/-- C10 (confirmed): every successful build reports a pre-check summary
with total = valid + failed, and valid is exactly the number of simulated
candidates carried forward to the merge step. -/
theorem C10_precheck_accounting (checksumOk : String → Bool) (sim : TransferCallW → Bool)
    (tokens : List Token) (targetAddress : String) (chainId : Nat)
    (sender : Option String) (nativeBalance : Nat) (res : BuildResult)
    (h : buildTransferCalls checksumOk sim tokens targetAddress chainId sender nativeBalance
          = Except.ok res) :
    res.precheckResult.total = res.precheckResult.valid + res.precheckResult.failed
      ∧ res.precheckResult.valid
        = (precheckValidCalls sim (buildPrecheckCalls targetAddress (selectTop20 tokens))).length := by
  by_cases hb : isAddress checksumOk targetAddress
  · simp only [buildTransferCalls, hb, Bool.not_true, Bool.false_eq_true, if_false] at h
    cases sender with
    | none => cases h
    | some s0 =>
        by_cases hf : (mergeAndCap
            (precheckValidCalls sim (buildPrecheckCalls targetAddress (selectTop20 tokens)))
            (buildNativeCall tokens targetAddress chainId nativeBalance)).length = 0
        · rw [if_pos hf] at h
          cases h
        · rw [if_neg hf] at h
          cases h
          constructor
          · exact (countP_add_countP_not sim
              (buildPrecheckCalls targetAddress (selectTop20 tokens))).symm
          · simp [precheckValidCalls, precheckCounts, List.countP_eq_length_filter]
  · simp [buildTransferCalls, hb] at h

/-- Witness for C10 on a one-token portfolio with an all-passing simulation
oracle and no native reserve configured (chain id 999): the summary is
total 1 = valid 1 + failed 0, and valid matches the surviving call list. -/
theorem C10_precheck_accounting_witness :
    (1 : Nat) = 1 + 0
      ∧ (1 : Nat) = (precheckValidCalls (fun _ => true)
          (buildPrecheckCalls senderAddr (selectTop20 [sampleErc20Token]))).length := by
  have h := C10_precheck_accounting (fun _ => false) (fun _ => true) [sampleErc20Token]
      senderAddr 999 (some senderAddr) 0
      { calls := [ { toAddress := sampleErc20Token.contract_address, value := 0,
                     data := some (encodeErc20TransferData senderAddr 2),
                     kind := CallKind.erc20_transfer } ],
        precheckResult := { total := 1, valid := 1, failed := 0 } }
      (by rfl)
  exact h

end DustSweeper
